import Mathlib

/-!
Verification of the caption-fitting core of the memer repository
(module src/memer/utils/images.py).

The embedding is shallow: the Python functions of images.py are translated
one by one into executable Lean functions.

Modelling conventions:
- Glyph metrics come from a FontBackend: for a font resource, the call
  ImageFont.truetype(font_path, size) followed by getmask(text).getbbox()
  is modelled by a function from the size and the text to an optional
  4-tuple of metric values (none models a Python None bounding box, which
  PIL returns for an empty mask), and getmetrics() by a descent function of
  the size. A FreeTypeFont value pairs a backend with an integer size.
- Python exceptions are modelled by the PyExn type and fallible code
  returns PyResult; the unbounded while loop of the font-size search takes
  explicit fuel, and running out of fuel yields the timeout outcome, the
  model of a computation that has not terminated yet.
- Python floats appearing in the layout computation (the ratio and the
  result of round) are modelled by exact fractions with an explicit
  integer numerator and positive denominator; round uses the
  round-half-to-even rule of Python.
- The mutable image is threaded explicitly: drawing functions take the
  image state and return the state after the call together with the
  functions result.  An image is its dimensions plus the list of text
  drawing operations performed on it, in order.
- Error message strings that Python builds with %-formatting of dynamic
  values are modelled by their static template; only the identity of the
  message matters to the control flow.
-/

namespace Memer

/-- A Python value taken from a glyph bounding box: either a number
(PIL returns ints; the code accepts float or int) or a non-numeric value
described by a tag such as the name of its Python type. -/
inductive PyVal where
  | num (x : Int)
  | nonNum (descr : String)
deriving DecidableEq

/-- The Python exceptions that can surface from the core: the domain error
MemeGenerationError of memer_exceptions.py, and the builtin TypeError and
ValueError that escape from operations on ill-typed or empty data. -/
inductive PyExn where
  | memeGenerationError (msg : String)
  | typeError (msg : String)
  | valueError (msg : String)
deriving DecidableEq

/-- Outcome of running a piece of Python code: a value, an uncaught
exception, or timeout, the fuel-exhaustion marker standing for a loop that
has not terminated within the allotted fuel. -/
inductive PyResult (α : Type) where
  | ok (a : α)
  | exn (e : PyExn)
  | timeout
deriving DecidableEq

/-- Message of the TypeError raised by subscripting a None bounding box,
as in getbbox()[2] when getbbox() returned None. -/
def noneSubscriptMessage : String :=
  "NoneType object is not subscriptable"

/-- Message of the TypeError raised by adding an int to a non-numeric
value, as in getbbox()[3] + descent with a non-numeric entry. -/
def addTypeErrorMessage (descr : String) : String :=
  "unsupported operand type for +: " ++ descr ++ " and int"

/-- Template of the defensive error message of _get_text_size (the code
interpolates the offending values and their types with %-formatting; the
dynamic part does not influence any control flow and is not modelled). -/
def measurementErrorMessage : String :=
  "Both width and height should be floats. " ++
  "Width is %s and has type %s and height is %s and has type %s"

/-- Message of the fit-exhaustion error of _determine_font_size.  The two
adjacent Python string literals concatenate without a space, which the
model preserves. -/
def noFontSizeMessage : String :=
  "No font size matched for meme." ++
  "Hint: try max_text_to_height_ratio or decreasing margins."

/-- Message of the validation error of MemeText._validate_text (quotes
around the field names elided). -/
def validationErrorMessage : String :=
  "At least one of top_text or bottom_text must be provided and not empty."

/-- Message of the ValueError raised by Python min() on an empty list. -/
def emptyMinMessage : String :=
  "min() arg is an empty sequence"

/-- Python addition of a bounding-box entry and an int, as in
getbbox()[3] + descent: numbers add, a non-numeric left operand raises
TypeError. -/
def PyVal.addInt : PyVal → Int → PyResult Int
  | .num x, d => .ok (x + d)
  | .nonNum descr, _ => .exn (.typeError (addTypeErrorMessage descr))

/-- A font resource (the font file behind a font path), reduced to the
observations images.py makes of it: the mask bounding box of a text at an
integer size (none models a None bounding box) and the descent metric at a
size. -/
structure FontBackend where
  maskBbox : Nat → String → Option (PyVal × PyVal × PyVal × PyVal)
  descent : Nat → Int

/-- ImageFont.FreeTypeFont: a font resource instantiated at a size. -/
structure FreeTypeFont where
  backend : FontBackend
  size : Nat

/-- ImageFont.truetype(font_path, font_size). -/
def truetype (font_path : FontBackend) (font_size : Nat) : FreeTypeFont :=
  ⟨font_path, font_size⟩

/-- MarginsConfiguration of settings.py. -/
structure MarginsConfiguration where
  vertical : Int
  horizontal : Int

/-- FontConfiguration of settings.py, reduced to its font_path property:
path resolution is out of the core, so the resolved path is modelled
directly by the font resource it denotes. -/
structure FontConfiguration where
  font_path : FontBackend

/-- Exact-fraction model of a non-negative Python float, as the value
num / den with positive denominator (not necessarily in lowest terms). -/
structure PyFloat where
  num : Int
  den : Int
deriving DecidableEq

/-- TextConfiguration of settings.py.  The float ratio is modelled by an
exact fraction. -/
structure TextConfiguration where
  max_text_to_height_ratio : PyFloat
  margins : MarginsConfiguration
  font : FontConfiguration

/-- One draw.text call of ImageDraw as issued by _add_text_to_image: the
position (a pair of Python numbers; the x coordinate comes from a true
division and is an exact rational here), the text, the font and the fixed
styling arguments. -/
structure DrawTextOp where
  x : ℚ
  y : ℚ
  text : String
  font : FreeTypeFont
  fill : String
  stroke_width : Nat
  stroke_fill : String

/-- A PIL image: its dimensions plus the accumulated list of text draws,
the explicit-state model of the mutable pixel canvas. -/
structure PILImage where
  width : Int
  height : Int
  ops : List DrawTextOp

/-- The MemeText dataclass fields. -/
structure MemeText where
  top_text : Option String
  bottom_text : Option String
  font : Option FreeTypeFont

/-- Python truthiness of an optional string: None and the empty string are
falsy. -/
def pyTruthyStr : Option String → Bool
  | none => false
  | some s => !s.isEmpty

/-- Constructing a MemeText: the dataclass __init__ followed by
__post_init__, whose _validate_text raises MemeGenerationError unless
top_text or bottom_text is truthy. -/
def MemeText.make (top_text bottom_text : Option String)
    (font : Option FreeTypeFont) : PyResult MemeText :=
  if !(pyTruthyStr top_text || pyTruthyStr bottom_text) then
    .exn (.memeGenerationError validationErrorMessage)
  else
    .ok ⟨top_text, bottom_text, font⟩

/-- _get_text_size of images.py.  In source order: descent is read from
getmetrics(), then width = getbbox()[2] (subscripting a None bounding box
raises TypeError), then height = getbbox()[3] + descent (a non-numeric
entry raises TypeError at the addition), then the isinstance check raises
MemeGenerationError when width is non-numeric (height, having survived the
addition, is numeric at that point).  A pure function of the text and the
font, by construction of the embedding. -/
def _get_text_size (text : String) (font : FreeTypeFont) :
    PyResult (Int × Int) :=
  let descent := font.backend.descent font.size
  match font.backend.maskBbox font.size text with
  | none => .exn (.typeError noneSubscriptMessage)
  | some (_, _, w, h) =>
    match h.addInt descent with
    | .exn e => .exn e
    | .timeout => .timeout
    | .ok height =>
      match w with
      | .nonNum _ => .exn (.memeGenerationError measurementErrorMessage)
      | .num width => .ok (width, height)

/-- _line_fits of images.py: the width comparison is non-strict, the
height comparison strict. -/
def _line_fits (text : String) (font : FreeTypeFont)
    (max_width max_height : Int) : PyResult Bool :=
  match _get_text_size text font with
  | .ok (w, h) => .ok (decide (w ≤ max_width) && decide (h < max_height))
  | .exn e => .exn e
  | .timeout => .timeout

/-- Python round() on an exact fraction, in integer arithmetic: round
half to even.  With f the floor of q.num / q.den, the fractional part is
(q.num - f * q.den) / q.den with positive denominator, so comparing it
against one half is comparing twice its numerator against the
denominator. -/
def pyRound (q : PyFloat) : Int :=
  let f := Int.fdiv q.num q.den
  let r2 := 2 * (q.num - f * q.den)
  if r2 < q.den then f
  else if q.den < r2 then f + 1
  else if f % 2 = 0 then f else f + 1

/-- The width budget of _determine_font_size:
image.width - 2 * margins.horizontal. -/
def fitMaxWidth (image : PILImage) (cfg : TextConfiguration) : Int :=
  image.width - 2 * cfg.margins.horizontal

/-- The height budget of _determine_font_size:
round(image.height * max_text_to_height_ratio), the float product being
the exact fraction with the same denominator as the ratio. -/
def fitMaxHeight (image : PILImage) (cfg : TextConfiguration) : Int :=
  pyRound ⟨image.height * cfg.max_text_to_height_ratio.num,
    cfg.max_text_to_height_ratio.den⟩

/-- The while loop of _determine_font_size, with explicit fuel: while the
current size fits, increment it and re-instantiate the font; on the first
size that fails, return that size minus one.  Fuel exhaustion models a
loop that has not terminated. -/
def fitSearchLoop (font_path : FontBackend) (text : String)
    (max_width max_height : Int) : Nat → Nat → PyResult Nat
  | 0, _ => .timeout
  | fuel + 1, font_size =>
    match _line_fits text (truetype font_path font_size) max_width max_height with
    | .ok true => fitSearchLoop font_path text max_width max_height fuel (font_size + 1)
    | .ok false => .ok (font_size - 1)
    | .exn e => .exn e
    | .timeout => .timeout

/-- _determine_font_size of images.py: compute the budgets, check size 1
(raising the fit-exhaustion MemeGenerationError when it does not fit),
then run the ascending probe starting again from size 1. -/
def _determine_font_size (image : PILImage) (text : String)
    (font_path : FontBackend) (text_configuration : TextConfiguration)
    (fuel : Nat) : PyResult Nat :=
  match _line_fits text (truetype font_path 1)
      (fitMaxWidth image text_configuration)
      (fitMaxHeight image text_configuration) with
  | .ok false => .exn (.memeGenerationError noFontSizeMessage)
  | .ok true =>
      fitSearchLoop font_path text (fitMaxWidth image text_configuration)
        (fitMaxHeight image text_configuration) fuel 1
  | .exn e => .exn e
  | .timeout => .timeout

/-- _add_text_to_image of images.py, with the image state made explicit:
the first component of the result is the state of the (mutated) input
image when the call ends, the second the returned value or the escaped
exception.  A present top text is measured and drawn at
((width - text_width) / 2, margins.vertical); then a present bottom text
is measured and drawn at
((width - text_width) / 2, height - text_height - margins.vertical); both
with white fill and a black stroke of width 2.  On success the function
returns the very image it mutated. -/
def _add_text_to_image (image : PILImage) (font : FreeTypeFont)
    (top_text bottom_text : Option String)
    (margins : MarginsConfiguration) : PILImage × PyResult PILImage :=
  let afterTop : PILImage × Option (PyResult PILImage) :=
    match top_text with
    | none => (image, none)
    | some t =>
      match _get_text_size t font with
      | .ok (w, _) =>
        ({ image with ops := image.ops ++
            [{ x := ((image.width - w : Int) : ℚ) / 2,
               y := (margins.vertical : ℚ),
               text := t, font := font, fill := "white",
               stroke_width := 2, stroke_fill := "black" }] }, none)
      | .exn e => (image, some (.exn e))
      | .timeout => (image, some .timeout)
  match afterTop with
  | (img1, some r) => (img1, r)
  | (img1, none) =>
    match bottom_text with
    | none => (img1, .ok img1)
    | some t =>
      match _get_text_size t font with
      | .ok (w, h) =>
        let img2 : PILImage := { img1 with ops := img1.ops ++
            [{ x := ((img1.width - w : Int) : ℚ) / 2,
               y := ((img1.height - h - margins.vertical : Int) : ℚ),
               text := t, font := font, fill := "white",
               stroke_width := 2, stroke_fill := "black" }] }
        (img2, .ok img2)
      | .exn e => (img1, .exn e)
      | .timeout => (img1, .timeout)

/-- create_meme of images.py, with the image state made explicit as in
_add_text_to_image.  When no font is pre-supplied, a candidate size is
determined for each caption that is not None (top first), Python min is
taken over the candidate list (raising ValueError when it is empty), and
the font is instantiated at that size; then the captions are drawn. -/
def create_meme (image : PILImage) (meme_text : MemeText)
    (text_configuration : TextConfiguration) (fuel : Nat) :
    PILImage × PyResult PILImage :=
  match meme_text.font with
  | some font =>
    _add_text_to_image image font meme_text.top_text meme_text.bottom_text
      text_configuration.margins
  | none =>
    let cand1 : PyResult (List Nat) :=
      match meme_text.top_text with
      | none => .ok []
      | some t =>
        match _determine_font_size image t text_configuration.font.font_path
            text_configuration fuel with
        | .ok s => .ok [s]
        | .exn e => .exn e
        | .timeout => .timeout
    match cand1 with
    | .exn e => (image, .exn e)
    | .timeout => (image, .timeout)
    | .ok c1 =>
      let cand2 : PyResult (List Nat) :=
        match meme_text.bottom_text with
        | none => .ok []
        | some t =>
          match _determine_font_size image t text_configuration.font.font_path
              text_configuration fuel with
          | .ok s => .ok [s]
          | .exn e => .exn e
          | .timeout => .timeout
      match cand2 with
      | .exn e => (image, .exn e)
      | .timeout => (image, .timeout)
      | .ok c2 =>
        match c1 ++ c2 with
        | [] => (image, .exn (.valueError emptyMinMessage))
        | s :: rest =>
          let font_size := rest.foldl Nat.min s
          _add_text_to_image image (truetype text_configuration.font.font_path font_size)
            meme_text.top_text meme_text.bottom_text text_configuration.margins

/-- Demonstration font resource with linear metrics: at size s the ink
bounding box of a text of n characters is (0, 0, s * n, s) and the descent
is 0. -/
def demoBackend : FontBackend where
  maskBbox s t := some (.num 0, .num 0, .num ((s : Int) * t.length), .num (s : Int))
  descent _ := 0

/-- Demonstration font resource whose metrics for the empty string are a
constant tall box, so that no size fits the empty string, while any other
text has the linear metrics of demoBackend. -/
def emptyTallBackend : FontBackend where
  maskBbox s t :=
    some (.num 0, .num 0, .num ((s : Int) * t.length),
      .num (if t = "" then 100 else (s : Int)))
  descent _ := 0

/-- Demonstration font resource that measures the text B with a
non-numeric width entry and everything else with small numeric metrics. -/
def badBottomBackend : FontBackend where
  maskBbox _ t :=
    if t = "B" then some (.num 0, .num 0, .nonNum "str", .num 5)
    else some (.num 0, .num 0, .num 3, .num 4)
  descent _ := 0

/-- Demonstration font resource whose bounding box is always None. -/
def noneBackend : FontBackend where
  maskBbox _ _ := none
  descent _ := 3

/-- Demonstration font resource with nonzero metrics everywhere. -/
def plainBackend : FontBackend where
  maskBbox _ _ := some (.num 1, .num 2, .num 10, .num 20)
  descent _ := 5

/-- A fresh 100 by 100 image with no draws on it. -/
def demoImage : PILImage :=
  { width := 100, height := 100, ops := [] }

/-- Layout configuration with margins 10/10 and ratio 1/10 over
demoBackend: the budgets on demoImage are width 80 and height 10. -/
def demoCfg : TextConfiguration :=
  { max_text_to_height_ratio := ⟨1, 10⟩,
    margins := { vertical := 10, horizontal := 10 },
    font := { font_path := demoBackend } }

/-- The configuration demoCfg with the font resource emptyTallBackend. -/
def emptyTallCfg : TextConfiguration :=
  { max_text_to_height_ratio := ⟨1, 10⟩,
    margins := { vertical := 10, horizontal := 10 },
    font := { font_path := emptyTallBackend } }

/-- Predicate singling out the domain error MemeGenerationError among the
outcomes of a computation. -/
def raisesMemeGenerationError {α : Type} : PyResult α → Bool
  | .exn (.memeGenerationError _) => true
  | _ => false

/-- Helper: every exception escaping _get_text_size is either a builtin
TypeError or the measurement MemeGenerationError with its fixed
message. -/
lemma get_text_size_exn_kinds (text : String) (font : FreeTypeFont) (e : PyExn)
    (h : _get_text_size text font = .exn e) :
    (∃ m, e = .typeError m) ∨ e = .memeGenerationError measurementErrorMessage := by
  simp only [_get_text_size] at h
  split at h
  · cases h
    exact Or.inl ⟨_, rfl⟩
  · split at h
    · rename_i heq
      cases h
      rename_i hv _ _
      unfold PyVal.addInt at heq
      split at heq
      · cases heq
      · cases heq
        exact Or.inl ⟨_, rfl⟩
    · cases h
    · split at h
      · cases h
        exact Or.inr rfl
      · cases h

/-- Helper: _line_fits evaluated through a successful measurement. -/
lemma line_fits_of_measure (text : String) (font : FreeTypeFont)
    (mw mh w h : Int) (hm : _get_text_size text font = .ok (w, h)) :
    _line_fits text font mw mh = .ok (decide (w ≤ mw) && decide (h < mh)) := by
  unfold _line_fits
  rw [hm]

/-- Helper: a _line_fits call that returns a boolean has measured the text
successfully. -/
lemma line_fits_measure_exists (text : String) (font : FreeTypeFont)
    (mw mh : Int) (v : Bool) (h : _line_fits text font mw mh = .ok v) :
    ∃ p, _get_text_size text font = .ok p := by
  unfold _line_fits at h
  split at h
  · rename_i heq
    exact ⟨_, heq⟩
  · cases h
  · cases h

/-- Helper: every exception escaping _line_fits comes from the
measurement, so it is a TypeError or the measurement error. -/
lemma line_fits_exn_kinds (text : String) (font : FreeTypeFont)
    (mw mh : Int) (e : PyExn) (h : _line_fits text font mw mh = .exn e) :
    (∃ m, e = .typeError m) ∨ e = .memeGenerationError measurementErrorMessage := by
  unfold _line_fits at h
  split at h
  · cases h
  · rename_i heq
    cases h
    exact get_text_size_exn_kinds _ _ _ heq
  · cases h

/-- Helper: when the ascending probe returns a size s, every size from the
starting one up to s fits and s + 1 does not. -/
lemma fitSearchLoop_ok (fp : FontBackend) (text : String) (mw mh : Int) :
    ∀ (fuel k s : Nat), 1 ≤ k →
      fitSearchLoop fp text mw mh fuel k = .ok s →
      _line_fits text (truetype fp (s + 1)) mw mh = .ok false
      ∧ ∀ j, k ≤ j → j ≤ s → _line_fits text (truetype fp j) mw mh = .ok true := by
  intro fuel
  induction fuel with
  | zero =>
    intro k s hk h
    simp [fitSearchLoop] at h
  | succ n ih =>
    intro k s hk h
    simp only [fitSearchLoop] at h
    split at h
    · rename_i heq
      have step := ih (k + 1) s (by omega) h
      refine ⟨step.1, ?_⟩
      intro j hj1 hj2
      rcases Nat.eq_or_lt_of_le hj1 with hjk | hlt
      · rw [hjk] at heq
        exact heq
      · exact step.2 j (by omega) hj2
    · rename_i heq
      cases h
      have hk1 : k - 1 + 1 = k := by omega
      rw [hk1]
      refine ⟨heq, ?_⟩
      intro j hj1 hj2
      exact absurd hj1 (by omega)
    · cases h
    · cases h

/-- Helper: an exception escaping the ascending probe was raised by a
_line_fits call at some size. -/
lemma fitSearchLoop_exn (fp : FontBackend) (text : String) (mw mh : Int) :
    ∀ (fuel k : Nat) (e : PyExn),
      fitSearchLoop fp text mw mh fuel k = .exn e →
      ∃ j, _line_fits text (truetype fp j) mw mh = .exn e := by
  intro fuel
  induction fuel with
  | zero =>
    intro k e h
    simp [fitSearchLoop] at h
  | succ n ih =>
    intro k e h
    simp only [fitSearchLoop] at h
    split at h
    · exact ih (k + 1) e h
    · cases h
    · rename_i heq
      cases h
      exact ⟨k, heq⟩
    · cases h

/-- Helper: when _determine_font_size returns a size s, size 1 fit the
initial check, every size from 1 to s fits, s is at least 1, and s + 1
does not fit. -/
lemma determine_ok_props (image : PILImage) (text : String)
    (fp : FontBackend) (cfg : TextConfiguration) (fuel : Nat) (s : Nat)
    (h : _determine_font_size image text fp cfg fuel = .ok s) :
    1 ≤ s
    ∧ (∀ j, 1 ≤ j → j ≤ s →
        _line_fits text (truetype fp j) (fitMaxWidth image cfg)
          (fitMaxHeight image cfg) = .ok true)
    ∧ _line_fits text (truetype fp (s + 1)) (fitMaxWidth image cfg)
        (fitMaxHeight image cfg) = .ok false := by
  unfold _determine_font_size at h
  split at h
  · cases h
  · rename_i heq
    have loop := fitSearchLoop_ok fp text (fitMaxWidth image cfg)
      (fitMaxHeight image cfg) fuel 1 s (by omega) h
    have hs : 1 ≤ s := by
      by_contra hs0
      have hzero : s = 0 := by omega
      rw [hzero] at loop
      rw [loop.1] at heq
      cases heq
    exact ⟨hs, loop.2, loop.1⟩
  · cases h
  · cases h

/-- Helper: when every present caption measures successfully at the given
font, _add_text_to_image returns exactly the image it mutated. -/
lemma add_text_ok_of_measures (image : PILImage) (font : FreeTypeFont)
    (top bottom : Option String) (margins : MarginsConfiguration)
    (htop : ∀ t, top = some t → ∃ p, _get_text_size t font = .ok p)
    (hbot : ∀ t, bottom = some t → ∃ p, _get_text_size t font = .ok p) :
    (_add_text_to_image image font top bottom margins).2
      = .ok (_add_text_to_image image font top bottom margins).1 := by
  cases top with
  | none =>
    cases bottom with
    | none => rfl
    | some b =>
      obtain ⟨⟨w, h⟩, hm⟩ := hbot b rfl
      simp [_add_text_to_image, hm]
  | some t =>
    obtain ⟨⟨wt, ht⟩, hmt⟩ := htop t rfl
    cases bottom with
    | none =>
      simp [_add_text_to_image, hmt]
    | some b =>
      obtain ⟨⟨wb, hb⟩, hmb⟩ := hbot b rfl
      simp [_add_text_to_image, hmt, hmb]

/-- C1: _determine_font_size raises the fit-exhaustion domain error
exactly when size 1 does not fit the computed width and height budgets;
and whenever it returns a size s, then s is at least 1, size s fits and
size s + 1 does not (the ascending probe returns the size before the
first failing one).  The return case is conditional correctness over the fuel
model: a run of the unbounded source loop that terminates corresponds to
a sufficient fuel value. -/
theorem determine_font_size_spec (image : PILImage) (text : String)
    (fp : FontBackend) (cfg : TextConfiguration) (fuel : Nat) :
    (_determine_font_size image text fp cfg fuel
        = .exn (.memeGenerationError noFontSizeMessage)
      ↔ _line_fits text (truetype fp 1) (fitMaxWidth image cfg)
          (fitMaxHeight image cfg) = .ok false)
    ∧ ∀ s, _determine_font_size image text fp cfg fuel = .ok s →
        1 ≤ s
        ∧ _line_fits text (truetype fp s) (fitMaxWidth image cfg)
            (fitMaxHeight image cfg) = .ok true
        ∧ _line_fits text (truetype fp (s + 1)) (fitMaxWidth image cfg)
            (fitMaxHeight image cfg) = .ok false := by
  constructor
  · constructor
    · intro h
      unfold _determine_font_size at h
      split at h
      · rename_i heq
        exact heq
      · rename_i heq
        obtain ⟨j, hj⟩ := fitSearchLoop_exn fp text (fitMaxWidth image cfg)
          (fitMaxHeight image cfg) fuel 1 _ h
        rcases line_fits_exn_kinds _ _ _ _ _ hj with ⟨m, hm⟩ | hm
        · cases hm
        · have hmsg : noFontSizeMessage = measurementErrorMessage :=
            PyExn.memeGenerationError.inj hm
          exact absurd hmsg (by decide)
      · rename_i heq
        cases h
        rcases line_fits_exn_kinds _ _ _ _ _ heq with ⟨m, hm⟩ | hm
        · cases hm
        · have hmsg : noFontSizeMessage = measurementErrorMessage :=
            PyExn.memeGenerationError.inj hm
          exact absurd hmsg (by decide)
      · cases h
    · intro hf
      unfold _determine_font_size
      rw [hf]
  · intro s h
    have props := determine_ok_props image text fp cfg fuel s h
    exact ⟨props.1, props.2.1 s props.1 (Nat.le_refl s), props.2.2⟩

/-- Witness for C1: on the demonstration font and layout (budgets 80 by
10), the search for the text HI returns size 9, which fits while size 10
does not. -/
theorem determine_font_size_spec_witness :
    1 ≤ 9
    ∧ _line_fits "HI" (truetype demoBackend 9) (fitMaxWidth demoImage demoCfg)
        (fitMaxHeight demoImage demoCfg) = .ok true
    ∧ _line_fits "HI" (truetype demoBackend (9 + 1)) (fitMaxWidth demoImage demoCfg)
        (fitMaxHeight demoImage demoCfg) = .ok false :=
  (determine_font_size_spec demoImage "HI" demoBackend demoCfg 100).2 9 (by decide)

/-- C2: given a successful measurement (w, h), a font size fits exactly
when w is at most image.width - 2 * horizontal margin (non-strict) and h
is strictly below round(image.height * max_text_to_height_ratio); a text
whose width equals the width budget is accepted, a text whose height
equals the height budget is rejected. -/
theorem line_fits_budget_boundary (image : PILImage) (cfg : TextConfiguration)
    (text : String) (font : FreeTypeFont) (w h : Int)
    (hm : _get_text_size text font = .ok (w, h)) :
    (_line_fits text font (fitMaxWidth image cfg) (fitMaxHeight image cfg) = .ok true
      ↔ w ≤ image.width - 2 * cfg.margins.horizontal
        ∧ h < pyRound ⟨image.height * cfg.max_text_to_height_ratio.num,
            cfg.max_text_to_height_ratio.den⟩)
    ∧ (w = fitMaxWidth image cfg →
        (_line_fits text font (fitMaxWidth image cfg) (fitMaxHeight image cfg) = .ok true
          ↔ h < fitMaxHeight image cfg))
    ∧ (h = fitMaxHeight image cfg →
        _line_fits text font (fitMaxWidth image cfg) (fitMaxHeight image cfg)
          = .ok false) := by
  have key := line_fits_of_measure text font (fitMaxWidth image cfg)
    (fitMaxHeight image cfg) w h hm
  refine ⟨?_, ?_, ?_⟩
  · rw [key]
    simp [fitMaxWidth, fitMaxHeight]
  · intro hw
    rw [key, hw]
    simp
  · intro hh
    rw [key, hh]
    simp

/-- Witness for C2: on the demonstration font at size 10, HI measures
(20, 10); its height equals the height budget 10 of the demonstration
layout and the fit check rejects it. -/
theorem line_fits_budget_boundary_witness :
    _line_fits "HI" (truetype demoBackend 10) (fitMaxWidth demoImage demoCfg)
      (fitMaxHeight demoImage demoCfg) = .ok false :=
  (line_fits_budget_boundary demoImage demoCfg "HI" (truetype demoBackend 10)
    20 10 (by decide)).2.2 (by decide)

/-- C4 counterexample: a backend whose bounding box is None makes
_get_text_size fail with the builtin TypeError from subscripting None,
not with the domain MemeGenerationError, refuting the claim that a
non-numeric (including None) bounding box always surfaces as the
measurement domain error. -/
theorem get_text_size_none_bbox_counterexample :
    noneBackend.maskBbox 7 "" = none
    ∧ _get_text_size "" (truetype noneBackend 7)
        = .exn (.typeError noneSubscriptMessage)
    ∧ raisesMemeGenerationError (_get_text_size "" (truetype noneBackend 7))
        = false :=
  ⟨rfl, by decide, by decide⟩

/-- C4 amended: a None bounding box raises TypeError at the subscript; a
subscriptable bounding box whose width entry is non-numeric while the
height entry is numeric raises the measurement MemeGenerationError; a
non-numeric height entry raises TypeError at the addition of the
descent. -/
theorem get_text_size_error_kinds_spec (text : String) (font : FreeTypeFont) :
    (font.backend.maskBbox font.size text = none →
      _get_text_size text font = .exn (.typeError noneSubscriptMessage))
    ∧ (∀ (a b : PyVal) (d : String) (h2 : Int),
        font.backend.maskBbox font.size text = some (a, b, .nonNum d, .num h2) →
        _get_text_size text font
          = .exn (.memeGenerationError measurementErrorMessage))
    ∧ (∀ (a b w : PyVal) (d : String),
        font.backend.maskBbox font.size text = some (a, b, w, .nonNum d) →
        _get_text_size text font
          = .exn (.typeError (addTypeErrorMessage d))) := by
  refine ⟨?_, ?_, ?_⟩
  · intro hb
    simp [_get_text_size, hb]
  · intro a b d h2 hb
    simp [_get_text_size, hb, PyVal.addInt]
  · intro a b w d hb
    simp [_get_text_size, hb, PyVal.addInt]

/-- Witness for C4 amended: the demonstration backend that measures the
text B with a non-numeric width raises the measurement domain error. -/
theorem get_text_size_error_kinds_spec_witness :
    _get_text_size "B" (truetype badBottomBackend 5)
      = .exn (.memeGenerationError measurementErrorMessage) :=
  (get_text_size_error_kinds_spec "B" (truetype badBottomBackend 5)).2.1
    (.num 0) (.num 0) "str" 5 (by decide)

/-- C5: on a numeric bounding box, _get_text_size returns the right edge
of the ink bounding box as the width and the bottom edge plus the font
descent as the height.  Purity in the text and the font holds by
construction: the embedding is a function of exactly those arguments and
threads no state. -/
theorem get_text_size_numeric_bbox (text : String) (font : FreeTypeFont)
    (a b : PyVal) (w h : Int)
    (hb : font.backend.maskBbox font.size text = some (a, b, .num w, .num h)) :
    _get_text_size text font = .ok (w, h + font.backend.descent font.size) := by
  simp [_get_text_size, hb, PyVal.addInt]

/-- Witness for C5: the constant backend with bounding box
(1, 2, 10, 20) and descent 5 measures any text as (10, 25). -/
theorem get_text_size_numeric_bbox_witness :
    _get_text_size "yes" (truetype plainBackend 12)
      = .ok (10, 20 + (truetype plainBackend 12).backend.descent
          (truetype plainBackend 12).size) :=
  get_text_size_numeric_bbox "yes" (truetype plainBackend 12)
    (.num 1) (.num 2) 10 20 (by decide)

/-- C6: constructing a MemeText whose two texts are both absent or empty
(Python-falsy) raises the validation MemeGenerationError in the
constructor itself, before any image is involved (the constructor takes
no image); constructing with only the top text A succeeds. -/
theorem meme_text_validation :
    (∀ (t b : Option String) (f : Option FreeTypeFont),
        pyTruthyStr t = false → pyTruthyStr b = false →
        MemeText.make t b f = .exn (.memeGenerationError validationErrorMessage))
    ∧ ∀ f : Option FreeTypeFont,
        MemeText.make (some "A") none f = .ok ⟨some "A", none, f⟩ := by
  constructor
  · intro t b f ht hb
    simp [MemeText.make, ht, hb]
  · intro f
    rfl

/-- Witness for C6: both texts empty or absent fail validation. -/
theorem meme_text_validation_witness :
    MemeText.make (some "") none none
      = .exn (.memeGenerationError validationErrorMessage) :=
  meme_text_validation.1 (some "") none none (by decide) (by decide)

/-- C3: with both captions present and no pre-supplied font, create_meme
runs the size search once per caption against the same image and
configuration and then draws both captions with the font instantiated at
the minimum of the two candidate sizes. -/
theorem create_meme_min_of_candidates (image : PILImage) (t b : String)
    (cfg : TextConfiguration) (fuel : Nat) (s1 s2 : Nat)
    (h1 : _determine_font_size image t cfg.font.font_path cfg fuel = .ok s1)
    (h2 : _determine_font_size image b cfg.font.font_path cfg fuel = .ok s2) :
    create_meme image ⟨some t, some b, none⟩ cfg fuel
      = _add_text_to_image image (truetype cfg.font.font_path (Nat.min s1 s2))
          (some t) (some b) cfg.margins := by
  simp [create_meme, h1, h2]

/-- Witness for C3: HI gets candidate size 9, LONGERTEXT candidate size
8, and the meme is drawn at the minimum of the two. -/
theorem create_meme_min_of_candidates_witness :
    create_meme demoImage ⟨some "HI", some "LONGERTEXT", none⟩ demoCfg 100
      = _add_text_to_image demoImage
          (truetype demoCfg.font.font_path (Nat.min 9 8))
          (some "HI") (some "LONGERTEXT") demoCfg.margins :=
  create_meme_min_of_candidates demoImage "HI" "LONGERTEXT" demoCfg 100 9 8
    (by decide) (by decide)

/-- C7: with both captions measured successfully, _add_text_to_image
issues exactly two draw calls: the top caption at
((width - text_width) / 2, margins.vertical) and the bottom caption at
((width - text_width) / 2, height - text_height - margins.vertical), both
with white fill and a black stroke of width 2; the result is the input
image with only its draw-operation list extended (the explicit-state
rendering of in-place mutation) and the returned handle is that same
mutated image; the single-caption cases issue the corresponding single
draw. -/
theorem add_text_to_image_spec (image : PILImage) (font : FreeTypeFont)
    (t b : String) (margins : MarginsConfiguration) (wt ht wb hb : Int)
    (hmt : _get_text_size t font = .ok (wt, ht))
    (hmb : _get_text_size b font = .ok (wb, hb)) :
    (_add_text_to_image image font (some t) (some b) margins
      = (let img : PILImage := { image with ops := image.ops ++
          [{ x := ((image.width - wt : Int) : ℚ) / 2,
             y := (margins.vertical : ℚ), text := t, font := font,
             fill := "white", stroke_width := 2, stroke_fill := "black" },
           { x := ((image.width - wb : Int) : ℚ) / 2,
             y := ((image.height - hb - margins.vertical : Int) : ℚ),
             text := b, font := font, fill := "white",
             stroke_width := 2, stroke_fill := "black" }] }
         (img, .ok img)))
    ∧ (_add_text_to_image image font (some t) none margins
      = (let img : PILImage := { image with ops := image.ops ++
          [{ x := ((image.width - wt : Int) : ℚ) / 2,
             y := (margins.vertical : ℚ), text := t, font := font,
             fill := "white", stroke_width := 2, stroke_fill := "black" }] }
         (img, .ok img)))
    ∧ (_add_text_to_image image font none (some b) margins
      = (let img : PILImage := { image with ops := image.ops ++
          [{ x := ((image.width - wb : Int) : ℚ) / 2,
             y := ((image.height - hb - margins.vertical : Int) : ℚ),
             text := b, font := font, fill := "white",
             stroke_width := 2, stroke_fill := "black" }] }
         (img, .ok img))) := by
  refine ⟨?_, ?_, ?_⟩
  · simp [_add_text_to_image, hmt, hmb]
  · simp [_add_text_to_image, hmt]
  · simp [_add_text_to_image, hmb]

/-- Witness for C7: both captions drawn on the demonstration image with
the constant backend measuring (10, 25). -/
theorem add_text_to_image_spec_witness :
    _add_text_to_image demoImage (truetype plainBackend 9) (some "T") (some "G")
      demoCfg.margins
      = (let img : PILImage := { demoImage with ops := demoImage.ops ++
          [{ x := ((demoImage.width - 10 : Int) : ℚ) / 2,
             y := (demoCfg.margins.vertical : ℚ), text := "T",
             font := truetype plainBackend 9, fill := "white",
             stroke_width := 2, stroke_fill := "black" },
           { x := ((demoImage.width - 10 : Int) : ℚ) / 2,
             y := ((demoImage.height - 25 - demoCfg.margins.vertical : Int) : ℚ),
             text := "G", font := truetype plainBackend 9, fill := "white",
             stroke_width := 2, stroke_fill := "black" }] }
         (img, .ok img)) :=
  (add_text_to_image_spec demoImage (truetype plainBackend 9) "T" "G"
    demoCfg.margins 10 25 10 25 (by decide) (by decide)).1

/-- C8 counterexample: with a caller-supplied font and a backend whose
metrics for the bottom caption have a non-numeric width, create_meme
raises the measurement MemeGenerationError, one of the core errors, yet
the input image has already been mutated: the top caption was drawn
before the failure.  The claim that any core error leaves the image
unchanged is therefore false. -/
theorem create_meme_draws_before_error_counterexample :
    (create_meme demoImage ⟨some "A", some "B", some (truetype badBottomBackend 5)⟩
        demoCfg 100).2
      = .exn (.memeGenerationError measurementErrorMessage)
    ∧ ((create_meme demoImage ⟨some "A", some "B", some (truetype badBottomBackend 5)⟩
        demoCfg 100).1.ops.map DrawTextOp.text) = ["A"]
    ∧ demoImage.ops.map DrawTextOp.text = [] :=
  ⟨rfl, rfl, rfl⟩

/-- C8 amended: in the automatic sizing path (no pre-supplied font),
every error raised by create_meme leaves the input image unchanged: the
searches complete before any drawing, and once they have returned the
drawing measurements are repetitions of measurements that already
succeeded during the searches. -/
theorem create_meme_error_keeps_image_when_sizing (image : PILImage)
    (meme_text : MemeText) (cfg : TextConfiguration) (fuel : Nat) (e : PyExn)
    (hfont : meme_text.font = none)
    (h : (create_meme image meme_text cfg fuel).2 = .exn e) :
    (create_meme image meme_text cfg fuel).1 = image := by
  obtain ⟨tt, bt, mf⟩ := meme_text
  cases mf with
  | some f => simp at hfont
  | none =>
  clear hfont
  cases tt with
  | none =>
    cases bt with
    | none => rfl
    | some b =>
      cases hr : _determine_font_size image b cfg.font.font_path cfg fuel with
      | exn e2 => simp [create_meme, hr]
      | timeout => simp [create_meme, hr]
      | ok s =>
        obtain ⟨hs1, hfits, _⟩ := determine_ok_props image b
          cfg.font.font_path cfg fuel s hr
        obtain ⟨p, hp⟩ := line_fits_measure_exists b
          (truetype cfg.font.font_path s) _ _ true
          (hfits s hs1 (Nat.le_refl s))
        have hok := add_text_ok_of_measures image (truetype cfg.font.font_path s)
          none (some b) cfg.margins
          (by intro t0 ht0; cases ht0)
          (by intro t0 ht0; cases ht0; exact ⟨p, hp⟩)
        simp only [create_meme, hr] at h
        simp only [List.nil_append, List.foldl] at h
        rw [hok] at h
        cases h
  | some t =>
    cases hr1 : _determine_font_size image t cfg.font.font_path cfg fuel with
    | exn e2 => simp [create_meme, hr1]
    | timeout => simp [create_meme, hr1]
    | ok s1 =>
      obtain ⟨hs1, hfits1, _⟩ := determine_ok_props image t
        cfg.font.font_path cfg fuel s1 hr1
      cases bt with
      | none =>
        obtain ⟨p, hp⟩ := line_fits_measure_exists t
          (truetype cfg.font.font_path s1) _ _ true
          (hfits1 s1 hs1 (Nat.le_refl s1))
        have hok := add_text_ok_of_measures image (truetype cfg.font.font_path s1)
          (some t) none cfg.margins
          (by intro t0 ht0; cases ht0; exact ⟨p, hp⟩)
          (by intro t0 ht0; cases ht0)
        simp only [create_meme, hr1] at h
        simp only [List.append_nil, List.foldl] at h
        rw [hok] at h
        cases h
      | some b =>
        cases hr2 : _determine_font_size image b cfg.font.font_path cfg fuel with
        | exn e2 => simp [create_meme, hr1, hr2]
        | timeout => simp [create_meme, hr1, hr2]
        | ok s2 =>
          obtain ⟨hs2, hfits2, _⟩ := determine_ok_props image b
            cfg.font.font_path cfg fuel s2 hr2
          obtain ⟨pt, hpt⟩ := line_fits_measure_exists t
            (truetype cfg.font.font_path (Nat.min s1 s2)) _ _ true
            (hfits1 (Nat.min s1 s2) (Nat.le_min.mpr ⟨hs1, hs2⟩) (Nat.min_le_left s1 s2))
          obtain ⟨pb, hpb⟩ := line_fits_measure_exists b
            (truetype cfg.font.font_path (Nat.min s1 s2)) _ _ true
            (hfits2 (Nat.min s1 s2) (Nat.le_min.mpr ⟨hs1, hs2⟩) (Nat.min_le_right s1 s2))
          have hok := add_text_ok_of_measures image
            (truetype cfg.font.font_path (Nat.min s1 s2))
            (some t) (some b) cfg.margins
            (by intro t0 ht0; cases ht0; exact ⟨pt, hpt⟩)
            (by intro t0 ht0; cases ht0; exact ⟨pb, hpb⟩)
          simp only [create_meme, hr1, hr2] at h
          simp only [List.cons_append, List.nil_append, List.foldl] at h
          rw [hok] at h
          cases h

/-- Witness for C8 amended: the fit-exhaustion failure on the empty top
caption with the tall-empty backend leaves the demonstration image
untouched. -/
theorem create_meme_error_keeps_image_when_sizing_witness :
    (create_meme demoImage ⟨some "", some "X", none⟩ emptyTallCfg 100).1
      = demoImage :=
  create_meme_error_keeps_image_when_sizing demoImage ⟨some "", some "X", none⟩
    emptyTallCfg 100 (.memeGenerationError noFontSizeMessage) rfl (by rfl)

/-- C9: construction with an empty top text and a non-empty bottom text
passes validation (the disjunction of truthiness holds), and create_meme
then treats the empty caption as present: with a backend measuring
normally, the empty string goes through the size search and is drawn
(first draw op has empty text); with a backend on which no size fits the
empty string, the search on the empty string raises the fit-exhaustion
error even though the bottom caption alone would fit.  Nothing filters an
empty-but-not-None caption. -/
theorem empty_caption_processed :
    MemeText.make (some "") (some "X") none = .ok ⟨some "", some "X", none⟩
    ∧ ((create_meme demoImage ⟨some "", some "X", none⟩ demoCfg 100).1.ops.map
        DrawTextOp.text) = ["", "X"]
    ∧ (create_meme demoImage ⟨some "", some "X", none⟩ demoCfg 100).2
        = .ok (create_meme demoImage ⟨some "", some "X", none⟩ demoCfg 100).1
    ∧ (create_meme demoImage ⟨some "", some "X", none⟩ emptyTallCfg 100).2
        = .exn (.memeGenerationError noFontSizeMessage)
    ∧ (create_meme demoImage ⟨some "X", none, none⟩ emptyTallCfg 100).2
        = .ok (create_meme demoImage ⟨some "X", none, none⟩ emptyTallCfg 100).1 :=
  ⟨rfl, rfl, rfl, rfl, rfl⟩

/-- C10: when a font is pre-supplied, create_meme skips the size search
and the fit check entirely and draws both captions directly with it; in
particular a text that fails the fit check at that size is still drawn at
it (demonstrated at size 50 on the 80 by 10 budget). -/
theorem presupplied_font_skips_fit (image : PILImage) (meme_text : MemeText)
    (cfg : TextConfiguration) (fuel : Nat) (font : FreeTypeFont)
    (hfont : meme_text.font = some font) :
    create_meme image meme_text cfg fuel
      = _add_text_to_image image font meme_text.top_text meme_text.bottom_text
          cfg.margins
    ∧ _line_fits "WIDETEXTDEMO" (truetype demoBackend 50)
        (fitMaxWidth demoImage demoCfg) (fitMaxHeight demoImage demoCfg)
        = .ok false
    ∧ ((create_meme demoImage
          ⟨some "WIDETEXTDEMO", none, some (truetype demoBackend 50)⟩
          demoCfg 100).1.ops.map fun o => o.font.size) = [50]
    ∧ (create_meme demoImage
          ⟨some "WIDETEXTDEMO", none, some (truetype demoBackend 50)⟩
          demoCfg 100).2
        = .ok (create_meme demoImage
            ⟨some "WIDETEXTDEMO", none, some (truetype demoBackend 50)⟩
            demoCfg 100).1 := by
  refine ⟨?_, by decide, rfl, rfl⟩
  obtain ⟨tt, bt, mf⟩ := meme_text
  cases mf with
  | none => simp at hfont
  | some f =>
    simp only at hfont
    cases hfont
    rfl

/-- Witness for C10: a pre-supplied font at size 3 is used directly. -/
theorem presupplied_font_skips_fit_witness :
    create_meme demoImage ⟨some "A", none, some (truetype demoBackend 3)⟩
      demoCfg 7
      = _add_text_to_image demoImage (truetype demoBackend 3) (some "A") none
          demoCfg.margins :=
  (presupplied_font_skips_fit demoImage
    ⟨some "A", none, some (truetype demoBackend 3)⟩ demoCfg 7
    (truetype demoBackend 3) rfl).1

end Memer
